import Mathlib

/-!
Shallow embedding of the httpstatus service (src/index.js, two revisions of the
file; definitions suffixed V1 refer to the first revision, V2 to the second).
JavaScript numbers are modelled as exact rationals (`Option ℚ`, `none` = NaN);
platform builtins (`Number`, `parseInt`, `JSON.parse`, `String()`) are modelled
directly after their ECMAScript definitions.
-/

/-- Whitespace accepted by the ECMAScript `ToNumber` / `String.prototype.trim`
conversions (ASCII whitespace plus NBSP; further exotic Unicode space code
points are omitted from the model). -/
def isJsWs (c : Char) : Bool :=
  c = ' ' || c = '\t' || c = '\n' || c = '\r' || c = '\x0b' || c = '\x0c' || c = '\xa0'

/-- Strip leading and trailing JS whitespace from a character list. -/
def trimChars (cs : List Char) : List Char :=
  ((cs.dropWhile isJsWs).reverse.dropWhile isJsWs).reverse

/-- JS `String.prototype.split` with a one-character separator, on character
lists: `"".split(sep)` is `[""]`, adjacent separators yield empty pieces. -/
def splitOnChar (cs : List Char) (sep : Char) : List (List Char) :=
  match cs with
  | [] => [[]]
  | c :: rest =>
    if c = sep then [] :: splitOnChar rest sep
    else
      match splitOnChar rest sep with
      | g :: gs => (c :: g) :: gs
      | [] => [[c]]

/-- Whether `needle` occurs as a contiguous run inside `hay`
(JS `String.prototype.includes`, on character lists). -/
def listIsInfixOf (needle hay : List Char) : Bool :=
  match hay with
  | [] => needle.isEmpty
  | _ :: t => needle.isPrefixOf hay || listIsInfixOf needle t

example : splitOnChar "200,201,500-504".toList ',' = ["200".toList, "201".toList, "500-504".toList] := by decide
example : splitOnChar "".toList ',' = [[]] := by decide
example : splitOnChar "a,,b".toList ',' = ["a".toList, [], "b".toList] := by decide
example : listIsInfixOf "application/json".toList "text/html, application/json".toList = true := by decide
example : listIsInfixOf "application/json".toList "text/plain".toList = false := by decide

/-- `String.prototype.trim`. -/
def jsTrim (s : String) : String :=
  String.mk (trimChars s.toList)

/-- Numeric value of a decimal digit character. -/
def digitVal (c : Char) : ℕ := c.toNat - 48

/-- Value of a list of decimal digit characters, most significant first. -/
def decValue (ds : List Char) : ℕ :=
  ds.foldl (fun a c => 10 * a + digitVal c) 0

/-- Value of a single hexadecimal digit character, if it is one. -/
def hexDigitVal (c : Char) : Option ℕ :=
  if c.isDigit then some (c.toNat - 48)
  else if 'a' ≤ c ∧ c ≤ 'f' then some (c.toNat - 87)
  else if 'A' ≤ c ∧ c ≤ 'F' then some (c.toNat - 55)
  else none

/-- Value of a digit string in radix `b` (2, 8 or 16); `none` when empty or
when some character is not a digit of that radix. -/
def radixValue (b : ℕ) (cs : List Char) : Option ℕ :=
  if cs.isEmpty then none
  else cs.foldl (fun acc c =>
    match acc, hexDigitVal c with
    | some a, some d => if d < b then some (b * a + d) else none
    | _, _ => none) (some 0)

/-- Exponent tail of a JS decimal literal: the characters after `e`/`E` and an
optional sign; must be a nonempty digit run consuming the whole remainder.
The mantissa is carried as an exact fraction `n / d` and the power of ten is
folded into numerator or denominator (kept in integers so the kernel can
evaluate; `mkRat` normalizes at the end). -/
def parseExpTail (n : ℤ) (d : ℕ) (neg : Bool) (cs : List Char) : Option ℚ :=
  let ds := cs.takeWhile Char.isDigit
  let r := cs.dropWhile Char.isDigit
  if ds.isEmpty ∨ ¬ r.isEmpty then none
  else some (if neg then mkRat n (d * 10 ^ decValue ds) else mkRat (n * 10 ^ decValue ds) d)

/-- Optional exponent part of a JS decimal literal applied to mantissa `n / d`. -/
def parseExpPart (n : ℤ) (d : ℕ) (cs : List Char) : Option ℚ :=
  match cs with
  | [] => some (mkRat n d)
  | c :: rest =>
    if c = 'e' ∨ c = 'E' then
      match rest with
      | '+' :: r => parseExpTail n d false r
      | '-' :: r => parseExpTail n d true r
      | r => parseExpTail n d false r
    else none

/-- Unsigned JS decimal literal: digits, optional fraction, optional exponent. -/
def parseDec (cs : List Char) : Option ℚ :=
  let ip := cs.takeWhile Char.isDigit
  let r1 := cs.dropWhile Char.isDigit
  match r1 with
  | '.' :: r2 =>
    let fp := r2.takeWhile Char.isDigit
    let r3 := r2.dropWhile Char.isDigit
    if ip.isEmpty ∧ fp.isEmpty then none
    else parseExpPart (decValue ip * 10 ^ fp.length + decValue fp : ℕ) (10 ^ fp.length) r3
  | _ => if ip.isEmpty then none else parseExpPart (decValue ip : ℕ) 1 r1

/-- Decimal literal or the literal `Infinity`.  JS yields `+Infinity` for the
latter; the model collapses it to `none` because every use site in the source
(`Number.isInteger`) treats `Infinity` and `NaN` identically (both fail). -/
def parseDecOrInf (cs : List Char) : Option ℚ :=
  if cs = "Infinity".toList then none else parseDec cs

/-- ECMAScript `Number(string)` coercion (`ToNumber` on strings), over exact
rationals: trimmed empty string is `0`; optional sign before a decimal
literal or `Infinity`; `0x`/`0o`/`0b` radix literals (no sign allowed);
anything else is NaN (`none`). -/
def jsToNumber (s : String) : Option ℚ :=
  match trimChars s.toList with
  | [] => some 0
  | '+' :: rest => parseDecOrInf rest
  | '-' :: rest => (parseDecOrInf rest).map Neg.neg
  | '0' :: c :: rest =>
    if c = 'x' ∨ c = 'X' then (radixValue 16 rest).map (fun n => (n : ℚ))
    else if c = 'o' ∨ c = 'O' then (radixValue 8 rest).map (fun n => (n : ℚ))
    else if c = 'b' ∨ c = 'B' then (radixValue 2 rest).map (fun n => (n : ℚ))
    else parseDec ('0' :: c :: rest)
  | cs => parseDecOrInf cs

/-- ECMAScript `parseInt(string, 10)`: skip leading whitespace, optional sign,
then the longest leading run of decimal digits; NaN (`none`) if that run is
empty. -/
def jsParseInt (s : String) : Option ℤ :=
  let cs := s.toList.dropWhile isJsWs
  let p : Bool × List Char :=
    match cs with
    | '-' :: r => (true, r)
    | '+' :: r => (false, r)
    | r => (false, r)
  let ds := p.2.takeWhile Char.isDigit
  if ds.isEmpty then none
  else some (if p.1 then -(decValue ds : ℤ) else (decValue ds : ℤ))

/-- src/index.js lines 36-39 / 315-318, `isValidStatusCode`: the argument is
`Number`-coerced (a no-op at every call site, which passes numbers), then
required to be an integer in [100, 599].  `none` is NaN. -/
def isValidStatusCode (n : Option ℚ) : Bool :=
  match n with
  | some q => decide (q.den = 1) && decide ((100 : ℚ) ≤ q) && decide (q ≤ (599 : ℚ))
  | none => false

example : isValidStatusCode (jsToNumber "200") = true := by decide
example : isValidStatusCode (jsToNumber "2e2") = true := by decide
example : isValidStatusCode (jsToNumber " 200 ") = true := by decide
example : isValidStatusCode (jsToNumber "0200") = true := by decide
example : isValidStatusCode (jsToNumber "200.0") = true := by decide
example : isValidStatusCode (jsToNumber "abc") = false := by decide
example : isValidStatusCode (jsToNumber "99") = false := by decide
example : isValidStatusCode (jsToNumber "600") = false := by decide
example : isValidStatusCode (jsToNumber "0x1F4") = true := by decide
example : jsToNumber "" = some 0 := by decide
example : jsToNumber "Infinity" = none := by decide
example : jsParseInt " 12abc" = some 12 := by decide
example : jsParseInt "-3" = some (-3) := by decide
example : jsParseInt "abc" = none := by decide
example : jsToNumber "-200" = some (-200) := by decide
example : jsToNumber "1.5" = some (mkRat 3 2) := by decide

/-- JavaScript values as far as the service observes them: results of
`JSON.parse`, request bodies, and custom response bodies. -/
inductive JsValue where
  | null
  | bool (b : Bool)
  | num (q : ℚ)
  | str (s : String)
  | arr (elems : List JsValue)
  | obj (fields : List (String × JsValue))

/-- JSON whitespace (RFC 8259: space, tab, newline, carriage return). -/
def isJsonWs (c : Char) : Bool :=
  c = ' ' || c = '\t' || c = '\n' || c = '\r'

/-- Skip JSON whitespace. -/
def skipJsonWs (cs : List Char) : List Char := cs.dropWhile isJsonWs

/-- Body of a JSON string literal, after the opening quote: collect characters
up to the closing quote, handling the escape sequences.  `\uXXXX` maps the code
unit directly to a character (surrogate-pair recombination is not modelled). -/
def parseJsonStringBody (cs : List Char) (acc : List Char) : Option (String × List Char) :=
  match cs with
  | [] => none
  | '"' :: rest => some (String.mk acc.reverse, rest)
  | '\\' :: e :: rest =>
    if e = '"' then parseJsonStringBody rest ('"' :: acc)
    else if e = '\\' then parseJsonStringBody rest ('\\' :: acc)
    else if e = '/' then parseJsonStringBody rest ('/' :: acc)
    else if e = 'b' then parseJsonStringBody rest ('\x08' :: acc)
    else if e = 'f' then parseJsonStringBody rest ('\x0c' :: acc)
    else if e = 'n' then parseJsonStringBody rest ('\n' :: acc)
    else if e = 'r' then parseJsonStringBody rest ('\r' :: acc)
    else if e = 't' then parseJsonStringBody rest ('\t' :: acc)
    else if e = 'u' then
      match rest with
      | h1 :: h2 :: h3 :: h4 :: r2 =>
        match hexDigitVal h1, hexDigitVal h2, hexDigitVal h3, hexDigitVal h4 with
        | some a, some b, some c, some d =>
          parseJsonStringBody r2 (Char.ofNat (((a * 16 + b) * 16 + c) * 16 + d) :: acc)
        | _, _, _, _ => none
      | _ => none
    else none
  | c :: rest => parseJsonStringBody rest (c :: acc)

/-- JSON number literal: optional minus, integer part without superfluous
leading zero, optional fraction, optional exponent. -/
def parseJsonNumber (cs : List Char) : Option (JsValue × List Char) :=
  let p : Bool × List Char :=
    match cs with
    | '-' :: r => (true, r)
    | r => (false, r)
  let ip := p.2.takeWhile Char.isDigit
  let r1 := p.2.dropWhile Char.isDigit
  if ip.isEmpty then none
  else if 2 ≤ ip.length ∧ ip.headD '0' = '0' then none
  else
    let finish : ℤ → ℕ → List Char → Option (JsValue × List Char) :=
      fun n d r =>
        match r with
        | c :: rest =>
          if c = 'e' ∨ c = 'E' then
            let q : Bool × List Char :=
              match rest with
              | '+' :: r2 => (false, r2)
              | '-' :: r2 => (true, r2)
              | r2 => (false, r2)
            let ed := q.2.takeWhile Char.isDigit
            let r3 := q.2.dropWhile Char.isDigit
            if ed.isEmpty then none
            else if q.1 then some (.num (mkRat n (d * 10 ^ decValue ed)), r3)
            else some (.num (mkRat (n * 10 ^ decValue ed) d), r3)
          else some (.num (mkRat n d), r)
        | [] => some (.num (mkRat n d), [])
    let sgn : ℤ := if p.1 then -1 else 1
    match r1 with
    | '.' :: r2 =>
      let fp := r2.takeWhile Char.isDigit
      let r3 := r2.dropWhile Char.isDigit
      if fp.isEmpty then none
      else finish (sgn * (decValue ip * 10 ^ fp.length + decValue fp : ℕ)) (10 ^ fp.length) r3
    | _ => finish (sgn * (decValue ip : ℕ)) 1 r1

mutual

/-- Fuel-driven recursive descent for `JSON.parse` values. -/
def parseJsonValue : ℕ → List Char → Option (JsValue × List Char)
  | 0, _ => none
  | fuel + 1, cs =>
    match skipJsonWs cs with
    | 'n' :: 'u' :: 'l' :: 'l' :: rest => some (.null, rest)
    | 't' :: 'r' :: 'u' :: 'e' :: rest => some (.bool true, rest)
    | 'f' :: 'a' :: 'l' :: 's' :: 'e' :: rest => some (.bool false, rest)
    | '"' :: rest => (parseJsonStringBody rest []).map (fun p => (.str p.1, p.2))
    | '[' :: rest =>
      (match skipJsonWs rest with
       | ']' :: r2 => some (.arr [], r2)
       | r2 => parseJsonItems fuel r2 [])
    | '\x7b' :: rest =>
      (match skipJsonWs rest with
       | '\x7d' :: r2 => some (.obj [], r2)
       | r2 => parseJsonFields fuel r2 [])
    | cs2 => parseJsonNumber cs2

/-- Comma-separated array elements up to the closing bracket. -/
def parseJsonItems : ℕ → List Char → List JsValue → Option (JsValue × List Char)
  | 0, _, _ => none
  | fuel + 1, cs, acc =>
    match parseJsonValue fuel cs with
    | some (v, rest) =>
      (match skipJsonWs rest with
       | ',' :: r2 => parseJsonItems fuel r2 (acc ++ [v])
       | ']' :: r2 => some (.arr (acc ++ [v]), r2)
       | _ => none)
    | none => none

/-- Comma-separated object members up to the closing brace. -/
def parseJsonFields : ℕ → List Char → List (String × JsValue) → Option (JsValue × List Char)
  | 0, _, _ => none
  | fuel + 1, cs, acc =>
    match skipJsonWs cs with
    | '"' :: r =>
      (match parseJsonStringBody r [] with
       | some (k, r2) =>
         (match skipJsonWs r2 with
          | ':' :: r3 =>
            (match parseJsonValue fuel r3 with
             | some (v, r4) =>
               (match skipJsonWs r4 with
                | ',' :: r5 => parseJsonFields fuel r5 (acc ++ [(k, v)])
                | '\x7d' :: r5 => some (.obj (acc ++ [(k, v)]), r5)
                | _ => none)
             | none => none)
          | _ => none)
       | none => none)
    | _ => none

end

/-- src/index.js lines 41-47 / 320-326, `tryParseJSON`: `JSON.parse` wrapped so
that a parse error yields `undefined` (modelled as `none`). -/
def tryParseJSON (s : String) : Option JsValue :=
  match parseJsonValue (2 * s.length + 2) s.toList with
  | some (v, rest) => if (skipJsonWs rest).isEmpty then some v else none
  | none => none

example : tryParseJSON "null" = some JsValue.null := by rfl
example : tryParseJSON "true" = some (JsValue.bool true) := by rfl
example : tryParseJSON "42" = some (JsValue.num 42) := by rfl
example : tryParseJSON "\"hi\"" = some (JsValue.str "hi") := by rfl
example : tryParseJSON "hello" = none := by rfl
example : tryParseJSON "0123" = none := by rfl
example : tryParseJSON "[1,2]" = some (JsValue.arr [.num 1, .num 2]) := by rfl
example : tryParseJSON " \x7b\"a\":1\x7d " = some (JsValue.obj [("a", .num 1)]) := by rfl

/-- Fraction digits of `n / d` (`n < d`) by long division, at most `fuel`
digits; JSON-parsed decimals always terminate. -/
def fracDigits : ℕ → ℕ → ℕ → List Char
  | 0, _, _ => []
  | _ + 1, 0, _ => []
  | fuel + 1, n, d => Nat.digitChar (n * 10 / d) :: fracDigits fuel (n * 10 % d) d

/-- ECMAScript number-to-string conversion, restricted to the exact rationals
the model produces: sign, integer part, and fraction digits by long division
(the source only stringifies values decoded from JSON text, whose denominators
divide a power of ten, so the digit sequence terminates). -/
def ratToJsString (q : ℚ) : String :=
  let sgn := if q.num < 0 then "-" else ""
  let n := q.num.natAbs
  let d := q.den
  if n % d = 0 then sgn ++ Nat.repr (n / d)
  else sgn ++ Nat.repr (n / d) ++ "." ++ String.mk (fracDigits 40 (n % d) d)

/-- ECMAScript `String(value)` on the values the handlers stringify.  The
handlers apply it only under a `typeof customBody !== \x27object\x27` guard,
so the `arr`/`obj` branches are unreachable there and carry placeholder
renderings. -/
def jsPrimToString : JsValue → String
  | .null => "null"
  | .bool b => if b then "true" else "false"
  | .num q => ratToJsString q
  | .str s => s
  | .arr _ => ""
  | .obj _ => "[object Object]"

example : jsPrimToString (.num 42) = "42" := by rfl
example : jsPrimToString (.num (mkRat 3 2)) = "1.5" := by rfl
example : jsPrimToString (.num (-5)) = "-5" := by rfl
example : jsPrimToString (.bool true) = "true" := by rfl

/-- JS `typeof v === \x27object\x27`: true for objects, arrays and `null`. -/
def jsTypeofIsObject : JsValue → Bool
  | .obj _ => true
  | .arr _ => true
  | .null => true
  | _ => false

/-- JS truthiness of a value (`req.body &&` guard). -/
def jsTruthy : JsValue → Bool
  | .null => false
  | .bool b => b
  | .num q => decide (q ≠ 0)
  | .str s => decide (s ≠ "")
  | _ => true

/-- `Object.keys(v).length`: own enumerable keys (object members, array
indices, string indices; primitives have none). -/
def objectKeysCount : JsValue → ℕ
  | .obj fs => fs.length
  | .arr es => es.length
  | .str s => s.length
  | _ => 0

/-- Lookup of a key in a modelled JSON object. -/
def objGet (v : JsValue) (k : String) : Option JsValue :=
  match v with
  | .obj fs => (fs.find? (fun p => p.1 == k)).map Prod.snd
  | _ => none

/-- Whether a modelled JSON object carries a key. -/
def objHasKey (v : JsValue) (k : String) : Bool :=
  (objGet v k).isSome

/-- src/index.js lines 50-70 / 329-349, `statusDescriptions` plus
`getStatusDescription`: static lookup of the short definition text, the empty
string for any code outside the table. -/
def getStatusDescription (c : ℤ) : String :=
  if c = 200 then "OK: The request has succeeded."
  else if c = 201 then "Created: The request has been fulfilled and resulted in a new resource being created."
  else if c = 202 then "Accepted: The request has been accepted for processing, but the processing has not been completed."
  else if c = 204 then "No Content: The server successfully processed the request, but is not returning any content."
  else if c = 301 then "Moved Permanently: The resource has been moved to a new URL."
  else if c = 302 then "Found: The resource resides temporarily under a different URL."
  else if c = 400 then "Bad Request: The server could not understand the request due to invalid syntax."
  else if c = 401 then "Unauthorized: The client must authenticate itself to get the requested response."
  else if c = 403 then "Forbidden: The client does not have access rights to the content."
  else if c = 404 then "Not Found: The server can not find the requested resource."
  else if c = 500 then "Internal Server Error: The server has encountered a situation it doesn\x27t know how to handle."
  else if c = 502 then "Bad Gateway: The server was acting as a gateway or proxy and received an invalid response."
  else if c = 503 then "Service Unavailable: The server is not ready to handle the request."
  else if c = 504 then "Gateway Timeout: The server is acting as a gateway and cannot get a response in time."
  else ""

/-- The codes present in the `statusDescriptions` table. -/
def knownStatusCodes : List ℤ :=
  [200, 201, 202, 204, 301, 302, 400, 401, 403, 404, 500, 502, 503, 504]

/-- src/index.js lines 72-74 / 351-353, `getMDNLink`: fixed URL template
parameterized by the code. -/
def getMDNLink (c : ℤ) : String :=
  "https://developer.mozilla.org/en-US/docs/Web/HTTP/Status/" ++ toString c

/-- src/index.js lines 138-163 / 434-459, `parseStatusCodeRange`, one comma
segment: a segment containing a hyphen is split on hyphens, the first two
pieces `Number`-coerced to start/end (JS array destructuring) and expanded to
the inclusive range when both are integers, start ≤ end, and both are valid
status codes; any other segment is `Number`-coerced and kept when valid; every
other case contributes nothing. -/
def parsePart (part : String) : List ℤ :=
  if part.toList.contains '-' then
    let nums := (splitOnChar part.toList '-').map (fun p => jsToNumber (String.mk p))
    match nums.getD 0 none, nums.getD 1 none with
    | some a, some b =>
      if a.den = 1 ∧ b.den = 1 ∧ a ≤ b ∧ isValidStatusCode (some a) ∧ isValidStatusCode (some b)
      then (List.range (b.num - a.num + 1).toNat).map (fun i => a.num + i)
      else []
    | _, _ => []
  else
    match jsToNumber part with
    | some q => if isValidStatusCode (some q) then [q.num] else []
    | none => []

/-- src/index.js lines 138-163 / 434-459, `parseStatusCodeRange`: split the
range string on commas and accumulate the codes of each segment in order. -/
def parseStatusCodeRange (rangeStr : String) : List ℤ :=
  ((splitOnChar rangeStr.toList ',').map String.mk).foldl
    (fun codes part => codes ++ parsePart part) []

example : parseStatusCodeRange "200,201,500-504" = [200, 201, 500, 501, 502, 503, 504] := by decide
example : parseStatusCodeRange "700-650" = [] := by decide
example : parseStatusCodeRange "abc,200" = [200] := by decide

/-- src/index.js lines 90-96 / 179-184 (and the corresponding lines of the
second revision): the `sleep` query parameter.  The guard `if (sleep)` skips
the empty string; `parseInt(sleep, 10)` then yields the delay, applied only
when it is a number greater than zero. -/
def sleepDelay (sleep : Option String) : ℕ :=
  match sleep with
  | none => 0
  | some s =>
    if s = "" then 0
    else
      match jsParseInt s with
      | some ms => if 0 < ms then ms.toNat else 0
      | none => 0

example : sleepDelay (some "100") = 100 := by rfl
example : sleepDelay (some "-5") = 0 := by rfl
example : sleepDelay (some "0") = 0 := by rfl
example : sleepDelay (some "abc") = 0 := by rfl
example : sleepDelay (some "5x") = 5 := by rfl
example : sleepDelay none = 0 := by rfl

/-- One inbound request as the handlers observe it.  `resStatusMessage` models
the value of `res.statusMessage || \x27\x27` supplied by the HTTP stack (the
standard reason phrase of the selected code); `startMs`/`startIso` and
`replyMs`/`replyIso` model the two `new Date()` samples (epoch milliseconds
and ISO rendering) taken by the second revision's handlers. -/
structure Request where
  param : String
  sleep : Option String
  bodyParam : Option String
  method : String
  reqBody : Option JsValue
  accept : Option String
  resStatusMessage : String
  startMs : ℤ
  startIso : String
  replyMs : ℤ
  replyIso : String

/-- A plain GET request for path parameter `p`, no query parameters, no body,
no Accept header. -/
def mkReq (p : String) : Request :=
  ⟨p, none, none, "GET", none, none, "", 0, "", 0, ""⟩

/-- What a handler sends: a plain-text `send` or a `res.json` payload. -/
inductive RespBody where
  | text (s : String)
  | json (v : JsValue)

/-- The HTTP response: status code and body. -/
structure Response where
  status : ℤ
  body : RespBody

/-- Observable effects of one handler run: how long the handler awaited the
artificial delay (0 if it never slept), whether it evaluated the custom-body
resolution at all, and the response sent. -/
structure Outcome where
  delayMs : ℕ
  bodyResolved : Bool
  response : Response

/-- src/index.js lines 104 / 190-191 etc.: the mutating verbs whose request
body may become the custom response body. -/
def mutatingMethods : List String := ["POST", "PUT", "PATCH"]

/-- src/index.js lines 99-109 (identical at 186-196, 391-402 and 486-496):
custom-body resolution.  `tryParseJSON(bodyParam) ?? bodyParam` falls back to
the raw string both when the parse fails (`undefined`) and when it decodes
JSON `null` (nullish coalescing); otherwise, on mutating verbs, a truthy
nonempty parsed request body is used as-is. -/
def resolveCustomBody (req : Request) : Option JsValue :=
  match req.bodyParam with
  | some bp =>
    match tryParseJSON bp with
    | some JsValue.null => some (.str bp)
    | some v => some v
    | none => some (.str bp)
  | none =>
    if req.method ∈ mutatingMethods then
      match req.reqBody with
      | some b => if jsTruthy b ∧ 0 < objectKeysCount b then some b else none
      | none => none
    else none

/-- `(req.headers[\x27accept\x27] || \x27\x27).includes(\x27application/json\x27)`. -/
def acceptHasJson (req : Request) : Bool :=
  listIsInfixOf "application/json".toList (req.accept.getD "").toList

/-- The JSON object sent by the first revision's handlers when no custom body
exists and the Accept header requests JSON (src/index.js lines 122-128 and
209-215). -/
def envelopeV1 (statusCode : ℤ) (msg : String) : JsValue :=
  .obj [("code", .num statusCode),
        ("description", .str msg),
        ("details", .str (getStatusDescription statusCode)),
        ("mdn", .str (getMDNLink statusCode))]

/-- The JSON object always sent by the second revision's handlers when no
custom body exists (src/index.js lines 419-430 and 513-524):
`duration_in_ms` is the difference of the two `Date` samples and
`duration_in_seconds` divides it by 1000. -/
def envelopeV2 (statusCode : ℤ) (req : Request) : JsValue :=
  .obj [("code", .num statusCode),
        ("requestedCode", .str req.param),
        ("description", .str req.resStatusMessage),
        ("definition", .str (getStatusDescription statusCode)),
        ("details", .str (getStatusDescription statusCode)),
        ("mdn", .str (getMDNLink statusCode)),
        ("startTime", .str req.startIso),
        ("replyTime", .str req.replyIso),
        ("duration_in_ms", .num ((req.replyMs - req.startMs : ℤ) : ℚ)),
        ("duration_in_seconds", .num (mkRat (req.replyMs - req.startMs) 1000))]

/-- Response composition shared verbatim by the first revision's two handlers
(src/index.js lines 111-134 and 198-221): a structured custom body is sent as
JSON, any other custom body as plain text via `String()`; with no custom body
the response is the JSON envelope when the Accept header asks for JSON, else
the plain text `\x60code reason\x60.trim()`. -/
def composeV1 (statusCode : ℤ) (req : Request) : Response :=
  match resolveCustomBody req with
  | some v =>
    if jsTypeofIsObject v then ⟨statusCode, .json v⟩
    else ⟨statusCode, .text (jsPrimToString v)⟩
  | none =>
    if acceptHasJson req then ⟨statusCode, .json (envelopeV1 statusCode req.resStatusMessage)⟩
    else ⟨statusCode, .text (jsTrim (toString statusCode ++ " " ++ req.resStatusMessage))⟩

/-- Response composition shared verbatim by the second revision's two handlers
(src/index.js lines 404-430 and 498-524): as in the first revision for custom
bodies, but with no custom body the full JSON envelope is always sent. -/
def composeV2 (statusCode : ℤ) (req : Request) : Response :=
  match resolveCustomBody req with
  | some v =>
    if jsTypeofIsObject v then ⟨statusCode, .json v⟩
    else ⟨statusCode, .text (jsPrimToString v)⟩
  | none => ⟨statusCode, .json (envelopeV2 statusCode req)⟩

/-- Path parameters for which the first revision's `/:code` handler defers to
the next route (src/index.js lines 79-80). -/
def reservedV1 : List String := ["random", "echo", "health", "docs", ""]

/-- Path parameters for which the second revision's `/:code` handler defers to
the next route (src/index.js lines 358-369). -/
def reservedV2 : List String :=
  ["random", "echo", "health", "docs", "openapi.json", "openapi.yaml", ""]

/-- The early `res.status(400).send(...)` of both `/:code` handlers. -/
def invalidCodeOutcome : Outcome :=
  ⟨0, false, ⟨400, .text "Invalid HTTP status code"⟩⟩

/-- The early `res.status(400).send(...)` of both `/random/:range` handlers. -/
def invalidRangeOutcome : Outcome :=
  ⟨0, false, ⟨400, .text "Invalid range for random status codes"⟩⟩

/-- src/index.js lines 77-135, `app.all(\x27/:code\x27)` of the first
revision: skip reserved segments, reject an invalid `Number`-coerced code with
400 before sleeping or resolving a body, otherwise sleep, resolve the custom
body and compose the response. -/
def handleCodeV1 (req : Request) : Option Outcome :=
  if req.param ∈ reservedV1 then none
  else
    match jsToNumber req.param with
    | some q =>
      if isValidStatusCode (some q)
      then some ⟨sleepDelay req.sleep, true, composeV1 q.num req⟩
      else some invalidCodeOutcome
    | none => some invalidCodeOutcome

/-- src/index.js lines 356-431, `app.all(\x27/:code\x27)` of the second
revision: as the first revision, with the larger reserved list and the
always-JSON envelope composition. -/
def handleCodeV2 (req : Request) : Option Outcome :=
  if req.param ∈ reservedV2 then none
  else
    match jsToNumber req.param with
    | some q =>
      if isValidStatusCode (some q)
      then some ⟨sleepDelay req.sleep, true, composeV2 q.num req⟩
      else some invalidCodeOutcome
    | none => some invalidCodeOutcome

/-- src/index.js lines 166-222, `app.all(\x27/random/:range\x27)` of the first
revision.  `pick` models `Math.floor(Math.random() * codes.length)`, always a
valid index of the nonempty parsed list. -/
def handleRandomV1 (req : Request) (pick : ℕ) : Outcome :=
  let codes := parseStatusCodeRange req.param
  if codes.isEmpty then invalidRangeOutcome
  else ⟨sleepDelay req.sleep, true, composeV1 (codes.getD pick 0) req⟩

/-- src/index.js lines 462-525, `app.all(\x27/random/:range\x27)` of the
second revision. -/
def handleRandomV2 (req : Request) (pick : ℕ) : Outcome :=
  let codes := parseStatusCodeRange req.param
  if codes.isEmpty then invalidRangeOutcome
  else ⟨sleepDelay req.sleep, true, composeV2 (codes.getD pick 0) req⟩

/-- `/redirect/:code` request: the path code and the `to` query parameter
(`toParam`; `none` when absent). -/
structure RedirectRequest where
  code : String
  toParam : Option String

/-- Result of the redirect handler. -/
inductive RedirectResult where
  | clientError (status : ℤ) (msg : String)
  | redirect (status : ℤ) (target : String)

/-- src/index.js lines 241-257 / 544-560, `app.get(\x27/redirect/:code\x27)`:
reject unless the `Number`-coerced code is a valid status code within
[300, 308]; then reject a falsy `to` (absent or empty string); otherwise
redirect with exactly that status to exactly that target, unvalidated. -/
def handleRedirect (req : RedirectRequest) : RedirectResult :=
  match jsToNumber req.code with
  | some q =>
    if isValidStatusCode (some q) ∧ (300 : ℚ) ≤ q ∧ q ≤ (308 : ℚ) then
      match req.toParam with
      | some t =>
        if t = "" then .clientError 400 "Missing \"to\" query parameter for redirect target"
        else .redirect q.num t
      | none => .clientError 400 "Missing \"to\" query parameter for redirect target"
    else .clientError 400 "Invalid redirect status code (must be 300-308)"
  | none => .clientError 400 "Invalid redirect status code (must be 300-308)"

example : handleCodeV1 (mkReq "204") = some ⟨0, true, ⟨204, .text "204"⟩⟩ := by rfl
example : handleCodeV1 (mkReq "abc") = some invalidCodeOutcome := by rfl
example : handleCodeV2 (mkReq "204") = some ⟨0, true, ⟨204, .json (envelopeV2 204 (mkReq "204"))⟩⟩ := by rfl
example : handleRandomV1 (mkReq "200,404") 1 = ⟨0, true, ⟨404, .text "404"⟩⟩ := by rfl
example : handleRedirect ⟨"301", some "https://example.com"⟩ = .redirect 301 "https://example.com" := by rfl
example : handleRedirect ⟨"200", some "https://example.com"⟩
    = .clientError 400 "Invalid redirect status code (must be 300-308)" := by rfl

/-! Helper lemmas about the embedded handlers. -/

set_option maxRecDepth 10000 in
set_option maxHeartbeats 1000000 in
/-- Decimal print-then-coerce roundtrip on the status code range. -/
lemma jsToNumber_repr : ∀ c ∈ Finset.Icc (100 : ℕ) 599, jsToNumber (toString c) = some (c : ℚ) := by
  decide

lemma isValidStatusCode_cast (c : ℕ) (h1 : 100 ≤ c) (h2 : c ≤ 599) :
    isValidStatusCode (some (c : ℚ)) = true := by
  simp only [isValidStatusCode, Bool.and_eq_true, decide_eq_true_eq]
  refine ⟨⟨?_, ?_⟩, ?_⟩
  · exact Rat.den_natCast c
  · exact_mod_cast h1
  · exact_mod_cast h2

/-- A string that `Number`-coerces to at least 100 is not one of the reserved
path segments of either revision. -/
lemma numeric_not_reserved (s : String) (q : ℚ) (hn : jsToNumber s = some q)
    (h100 : (100 : ℚ) ≤ q) : s ∉ reservedV1 ∧ s ∉ reservedV2 := by
  have key : ∀ r : String, s = r → jsToNumber r = none → False := by
    rintro r rfl hr
    rw [hr] at hn
    exact Option.noConfusion hn
  have kempty : s = "" → False := by
    rintro rfl
    rw [show jsToNumber "" = some 0 from rfl] at hn
    obtain rfl : (0 : ℚ) = q := Option.some.inj hn
    norm_num at h100
  constructor <;> intro hmem
  · simp only [reservedV1, List.mem_cons, List.mem_singleton, List.not_mem_nil] at hmem
    rcases hmem with rfl | rfl | rfl | rfl | rfl | h
    · exact key "random" rfl rfl
    · exact key "echo" rfl rfl
    · exact key "health" rfl rfl
    · exact key "docs" rfl rfl
    · exact kempty rfl
    · exact h.elim
  · simp only [reservedV2, List.mem_cons, List.mem_singleton, List.not_mem_nil] at hmem
    rcases hmem with rfl | rfl | rfl | rfl | rfl | rfl | rfl | h
    · exact key "random" rfl rfl
    · exact key "echo" rfl rfl
    · exact key "health" rfl rfl
    · exact key "docs" rfl rfl
    · exact key "openapi.json" rfl rfl
    · exact key "openapi.yaml" rfl rfl
    · exact kempty rfl
    · exact h.elim

lemma composeV1_status (c : ℤ) (req : Request) : (composeV1 c req).status = c := by
  unfold composeV1
  rcases resolveCustomBody req with _ | v
  · by_cases h : acceptHasJson req <;> simp [h]
  · by_cases h : jsTypeofIsObject v <;> simp [h]

lemma composeV2_status (c : ℤ) (req : Request) : (composeV2 c req).status = c := by
  unfold composeV2
  rcases resolveCustomBody req with _ | v
  · simp
  · by_cases h : jsTypeofIsObject v <;> simp [h]

lemma handleCodeV1_valid (req : Request) (q : ℚ) (hnr : req.param ∉ reservedV1)
    (hn : jsToNumber req.param = some q) (hv : isValidStatusCode (some q) = true) :
    handleCodeV1 req = some ⟨sleepDelay req.sleep, true, composeV1 q.num req⟩ := by
  simp [handleCodeV1, hnr, hn, hv]

lemma handleCodeV2_valid (req : Request) (q : ℚ) (hnr : req.param ∉ reservedV2)
    (hn : jsToNumber req.param = some q) (hv : isValidStatusCode (some q) = true) :
    handleCodeV2 req = some ⟨sleepDelay req.sleep, true, composeV2 q.num req⟩ := by
  simp [handleCodeV2, hnr, hn, hv]

lemma handleCodeV1_invalid (req : Request) (hnr : req.param ∉ reservedV1)
    (hv : isValidStatusCode (jsToNumber req.param) = false) :
    handleCodeV1 req = some invalidCodeOutcome := by
  rcases hn : jsToNumber req.param with _ | q
  · simp [handleCodeV1, hnr, hn]
  · rw [hn] at hv
    simp [handleCodeV1, hnr, hn, hv]

lemma handleCodeV2_invalid (req : Request) (hnr : req.param ∉ reservedV2)
    (hv : isValidStatusCode (jsToNumber req.param) = false) :
    handleCodeV2 req = some invalidCodeOutcome := by
  rcases hn : jsToNumber req.param with _ | q
  · simp [handleCodeV2, hnr, hn]
  · rw [hn] at hv
    simp [handleCodeV2, hnr, hn, hv]

lemma handleRandomV1_empty (req : Request) (pick : ℕ)
    (h : parseStatusCodeRange req.param = []) :
    handleRandomV1 req pick = invalidRangeOutcome := by
  simp [handleRandomV1, h]

lemma handleRandomV2_empty (req : Request) (pick : ℕ)
    (h : parseStatusCodeRange req.param = []) :
    handleRandomV2 req pick = invalidRangeOutcome := by
  simp [handleRandomV2, h]

lemma handleRandomV1_nonempty (req : Request) (pick : ℕ)
    (h : parseStatusCodeRange req.param ≠ []) :
    handleRandomV1 req pick =
      ⟨sleepDelay req.sleep, true, composeV1 ((parseStatusCodeRange req.param).getD pick 0) req⟩ := by
  have he : (parseStatusCodeRange req.param).isEmpty = false := by
    simpa [List.isEmpty_iff] using h
  simp [handleRandomV1, he]

lemma handleRandomV2_nonempty (req : Request) (pick : ℕ)
    (h : parseStatusCodeRange req.param ≠ []) :
    handleRandomV2 req pick =
      ⟨sleepDelay req.sleep, true, composeV2 ((parseStatusCodeRange req.param).getD pick 0) req⟩ := by
  have he : (parseStatusCodeRange req.param).isEmpty = false := by
    simpa [List.isEmpty_iff] using h
  simp [handleRandomV2, he]

lemma getD_mem_of_lt (l : List ℤ) (i : ℕ) (h : i < l.length) : l.getD i 0 ∈ l := by
  rw [List.getD_eq_getElem l 0 h]
  exact List.getElem_mem h

lemma valid_fields (q : ℚ) (h : isValidStatusCode (some q) = true) :
    q.den = 1 ∧ (100 : ℚ) ≤ q ∧ q ≤ 599 := by
  simpa [isValidStatusCode, Bool.and_eq_true, decide_eq_true_eq, and_assoc] using h

/-- A valid status-code parameter is not a reserved path segment. -/
lemma valid_not_reserved (s : String) (q : ℚ) (hn : jsToNumber s = some q)
    (hv : isValidStatusCode (some q) = true) : s ∉ reservedV1 ∧ s ∉ reservedV2 :=
  numeric_not_reserved s q hn (valid_fields q hv).2.1

lemma foldl_append_flatten {α β : Type} (f : α → List β) (l : List α) (init : List β) :
    l.foldl (fun acc x => acc ++ f x) init = init ++ (l.map f).flatten := by
  induction l generalizing init with
  | nil => simp
  | cons a t ih => simp [ih, List.append_assoc]

/-! The claims. -/

/-- Claim C1: for every integer c with 100 ≤ c ≤ 599, a request to `/{c}`
produces a response whose HTTP status equals c, in both revisions of the
`/:code` handler; for every non-reserved path value whose `Number` coercion is
not an integer in that range (including non-numeric values), the response
status is 400. -/
theorem C1_code_endpoint_status :
    (∀ c : ℕ, 100 ≤ c → c ≤ 599 → ∀ req : Request, req.param = toString c →
        ((handleCodeV1 req).map fun o => o.response.status) = some (c : ℤ)
        ∧ ((handleCodeV2 req).map fun o => o.response.status) = some (c : ℤ))
    ∧ (∀ req : Request, req.param ∉ reservedV1 →
        isValidStatusCode (jsToNumber req.param) = false →
        ((handleCodeV1 req).map fun o => o.response.status) = some 400)
    ∧ (∀ req : Request, req.param ∉ reservedV2 →
        isValidStatusCode (jsToNumber req.param) = false →
        ((handleCodeV2 req).map fun o => o.response.status) = some 400) := by
  refine ⟨?_, ?_, ?_⟩
  · intro c h1 h2 req hp
    have hmem : c ∈ Finset.Icc (100 : ℕ) 599 := Finset.mem_Icc.mpr ⟨h1, h2⟩
    have hn : jsToNumber req.param = some (c : ℚ) := by
      rw [hp]; exact jsToNumber_repr c hmem
    have hv := isValidStatusCode_cast c h1 h2
    have hnr := numeric_not_reserved req.param (c : ℚ) hn (by exact_mod_cast h1)
    constructor
    · rw [handleCodeV1_valid req (c : ℚ) hnr.1 hn hv]
      simp [composeV1_status, Rat.num_natCast]
    · rw [handleCodeV2_valid req (c : ℚ) hnr.2 hn hv]
      simp [composeV2_status, Rat.num_natCast]
  · intro req hnr hv
    rw [handleCodeV1_invalid req hnr hv]
    rfl
  · intro req hnr hv
    rw [handleCodeV2_invalid req hnr hv]
    rfl

theorem C1_witness :
    ((handleCodeV1 (mkReq "204")).map fun o => o.response.status) = some 204
    ∧ ((handleCodeV2 (mkReq "204")).map fun o => o.response.status) = some 204
    ∧ ((handleCodeV1 (mkReq "abc")).map fun o => o.response.status) = some 400 := by
  have h := C1_code_endpoint_status
  have h204 := h.1 204 (by norm_num) (by norm_num) (mkReq "204") (by rfl)
  exact ⟨h204.1, h204.2, h.2.1 (mkReq "abc") (by decide) (by rfl)⟩

/-- Claim C2: the range parser splits on commas and processes segments in
order; a hyphenated segment is split into start/end and expanded to the
inclusive sequence exactly when both coerce to integers, start ≤ end and both
are valid status codes; any other segment is kept as a single code exactly
when valid; malformed segments (including reversed ranges) are dropped
silently, duplicates are retained and the output is not sorted or
deduplicated; with the quoted concrete examples. -/
theorem C2_parse_range_behavior :
    parseStatusCodeRange "200,201,500-504" = [200, 201, 500, 501, 502, 503, 504]
    ∧ parseStatusCodeRange "700-650" = []
    ∧ parseStatusCodeRange "abc,200" = [200]
    ∧ parseStatusCodeRange "201,200,200" = [201, 200, 200]
    ∧ (∀ s : String,
        parseStatusCodeRange s = (((splitOnChar s.toList ',').map String.mk).map parsePart).flatten)
    ∧ (∀ part : String, part.toList.contains '-' = false →
        parsePart part =
          (match jsToNumber part with
           | some q => if isValidStatusCode (some q) then [q.num] else []
           | none => []))
    ∧ (∀ part : String, ∀ a b : ℚ, part.toList.contains '-' = true →
        (splitOnChar part.toList '-').map (fun p => jsToNumber (String.mk p)) = [some a, some b] →
        parsePart part =
          (if a.den = 1 ∧ b.den = 1 ∧ a ≤ b ∧ isValidStatusCode (some a) ∧ isValidStatusCode (some b)
           then (List.range (b.num - a.num + 1).toNat).map (fun i => a.num + i)
           else [])) := by
  refine ⟨by decide, by decide, by decide, by decide, ?_, ?_, ?_⟩
  · intro s
    simpa using foldl_append_flatten parsePart ((splitOnChar s.toList ',').map String.mk) []
  · intro part h
    unfold parsePart
    rw [h, if_neg Bool.false_ne_true]
  · intro part a b hc hsplit
    unfold parsePart
    rw [hc, if_pos rfl, hsplit]
    rfl

theorem C2_witness : parsePart "500-504" = [500, 501, 502, 503, 504] := by
  have h := C2_parse_range_behavior
  have h2 := h.2.2.2.2.2.2 "500-504" 500 504 (by decide) (by rfl)
  rw [h2, if_pos (by decide)]
  decide

/-- Claim C9: `isValidStatusCode` accepts any string whose JS `Number`
coercion is an integer in [100, 599], not only canonical three-digit decimal
forms: "2e2", " 200 ", "0200" and "200.0" are all accepted, and requesting
such a path (e.g. `/2e2`) yields the coerced status code rather than 400. -/
theorem C9_coercive_validation :
    (∀ s : String, ∀ q : ℚ, jsToNumber s = some q → q.den = 1 →
        (100 : ℚ) ≤ q → q ≤ 599 →
        isValidStatusCode (jsToNumber s) = true
        ∧ ((handleCodeV1 (mkReq s)).map fun o => o.response.status) = some q.num
        ∧ ((handleCodeV2 (mkReq s)).map fun o => o.response.status) = some q.num)
    ∧ isValidStatusCode (jsToNumber "2e2") = true
    ∧ isValidStatusCode (jsToNumber " 200 ") = true
    ∧ isValidStatusCode (jsToNumber "0200") = true
    ∧ isValidStatusCode (jsToNumber "200.0") = true
    ∧ ((handleCodeV1 (mkReq "2e2")).map fun o => o.response.status) = some 200 := by
  refine ⟨?_, by rfl, by rfl, by rfl, by rfl, by rfl⟩
  intro s q hn hden h100 h599
  have hv : isValidStatusCode (some q) = true := by
    simp only [isValidStatusCode, Bool.and_eq_true, decide_eq_true_eq]
    exact ⟨⟨hden, h100⟩, h599⟩
  have hv2 : isValidStatusCode (jsToNumber s) = true := by rw [hn]; exact hv
  have hnr := numeric_not_reserved s q hn h100
  refine ⟨hv2, ?_, ?_⟩
  · rw [handleCodeV1_valid (mkReq s) q hnr.1 hn hv]
    simp [composeV1_status]
  · rw [handleCodeV2_valid (mkReq s) q hnr.2 hn hv]
    simp [composeV2_status]

lemma composeV1_noBody_text (c : ℤ) (req : Request) (hcb : resolveCustomBody req = none)
    (ha : acceptHasJson req = false) :
    composeV1 c req = ⟨c, .text (jsTrim (toString c ++ " " ++ req.resStatusMessage))⟩ := by
  unfold composeV1
  rw [hcb, ha, if_neg Bool.false_ne_true]

lemma composeV1_noBody_json (c : ℤ) (req : Request) (hcb : resolveCustomBody req = none)
    (ha : acceptHasJson req = true) :
    composeV1 c req = ⟨c, .json (envelopeV1 c req.resStatusMessage)⟩ := by
  unfold composeV1
  rw [hcb, ha, if_pos rfl]

lemma composeV2_noBody (c : ℤ) (req : Request) (hcb : resolveCustomBody req = none) :
    composeV2 c req = ⟨c, .json (envelopeV2 c req)⟩ := by
  unfold composeV2
  rw [hcb]

lemma composeV1_custom_text (c : ℤ) (req : Request) (v : JsValue)
    (hcb : resolveCustomBody req = some v) (ho : jsTypeofIsObject v = false) :
    composeV1 c req = ⟨c, .text (jsPrimToString v)⟩ := by
  unfold composeV1
  rw [hcb]
  simp only [ho, Bool.false_eq_true, if_false]

lemma composeV1_custom_json (c : ℤ) (req : Request) (v : JsValue)
    (hcb : resolveCustomBody req = some v) (ho : jsTypeofIsObject v = true) :
    composeV1 c req = ⟨c, .json v⟩ := by
  unfold composeV1
  rw [hcb]
  simp only [ho, if_true]

lemma composeV2_custom_text (c : ℤ) (req : Request) (v : JsValue)
    (hcb : resolveCustomBody req = some v) (ho : jsTypeofIsObject v = false) :
    composeV2 c req = ⟨c, .text (jsPrimToString v)⟩ := by
  unfold composeV2
  rw [hcb]
  simp only [ho, Bool.false_eq_true, if_false]

lemma composeV2_custom_json (c : ℤ) (req : Request) (v : JsValue)
    (hcb : resolveCustomBody req = some v) (ho : jsTypeofIsObject v = true) :
    composeV2 c req = ⟨c, .json v⟩ := by
  unfold composeV2
  rw [hcb]
  simp only [ho, if_true]

theorem C9_witness :
    isValidStatusCode (jsToNumber "0200") = true
    ∧ ((handleCodeV1 (mkReq "0200")).map fun o => o.response.status) = some 200 := by
  have h := (C9_coercive_validation).1 "0200" 200 (by rfl) (by decide) (by norm_num) (by norm_num)
  refine ⟨h.1, ?_⟩
  have h2 := h.2.1
  simpa using h2

/-- Claim C3, as amended: the default response shape is symmetric within each
revision, not asymmetric between the endpoints.  In the first revision both
`/:code` and `/random/:range` respond with plain text `"<code> <reason>"`
absent a structured Accept header, and in the second revision both always
respond with the full structured JSON envelope when no custom body is
supplied. -/
theorem C3_default_response_shape :
    (∀ req : Request, ∀ q : ℚ, jsToNumber req.param = some q →
        isValidStatusCode (some q) = true → resolveCustomBody req = none →
        acceptHasJson req = false →
        ((handleCodeV1 req).map fun o => o.response.body)
          = some (.text (jsTrim (toString q.num ++ " " ++ req.resStatusMessage))))
    ∧ (∀ req : Request, ∀ pick : ℕ, parseStatusCodeRange req.param ≠ [] →
        resolveCustomBody req = none → acceptHasJson req = false →
        (handleRandomV1 req pick).response.body
          = .text (jsTrim (toString ((parseStatusCodeRange req.param).getD pick 0)
              ++ " " ++ req.resStatusMessage)))
    ∧ (∀ req : Request, ∀ q : ℚ, jsToNumber req.param = some q →
        isValidStatusCode (some q) = true → resolveCustomBody req = none →
        ((handleCodeV2 req).map fun o => o.response.body)
          = some (.json (envelopeV2 q.num req)))
    ∧ (∀ req : Request, ∀ pick : ℕ, parseStatusCodeRange req.param ≠ [] →
        resolveCustomBody req = none →
        (handleRandomV2 req pick).response.body
          = .json (envelopeV2 ((parseStatusCodeRange req.param).getD pick 0) req)) := by
  refine ⟨?_, ?_, ?_, ?_⟩
  · intro req q hn hv hcb ha
    rw [handleCodeV1_valid req q (valid_not_reserved req.param q hn hv).1 hn hv]
    simp [composeV1_noBody_text q.num req hcb ha]
  · intro req pick hne hcb ha
    rw [handleRandomV1_nonempty req pick hne]
    simp [composeV1_noBody_text _ req hcb ha]
  · intro req q hn hv hcb
    rw [handleCodeV2_valid req q (valid_not_reserved req.param q hn hv).2 hn hv]
    simp [composeV2_noBody q.num req hcb]
  · intro req pick hne hcb
    rw [handleRandomV2_nonempty req pick hne]
    simp [composeV2_noBody _ req hcb]

theorem C3_witness :
    ((handleCodeV1 (mkReq "204")).map fun o => o.response.body) = some (RespBody.text "204") := by
  have h := (C3_default_response_shape).1 (mkReq "204") 204 (by rfl) (by rfl) (by rfl) (by rfl)
  simpa using h

/-- Claim C3, counterexample to the claim as stated: with no custom body and
no Accept header, the first revision's random endpoint answers in plain text
(not the claimed always-envelope), and the second revision's single-code
endpoint answers with the full JSON envelope (not the claimed plain text). -/
theorem C3_counterexample :
    resolveCustomBody (mkReq "200") = none
    ∧ (handleRandomV1 (mkReq "200") 0).response.body = RespBody.text "200"
    ∧ ((handleCodeV2 (mkReq "200")).map fun o => o.response.body)
        = some (RespBody.json (envelopeV2 200 (mkReq "200"))) := by
  exact ⟨rfl, rfl, rfl⟩

/-- Claim C4, as amended: every envelope emitted by the second revision's
handlers when no custom body is present carries the selected code, the
requested code/range string, the reason phrase, the definition (empty for
codes outside the lookup table), the MDN link derived from the fixed URL
template, both timestamps, and the elapsed duration in milliseconds and in
seconds; the first revision's content-negotiated JSON envelope instead carries
only code, reason phrase, definition text and documentation link. -/
theorem C4_envelope_contents :
    (∀ req : Request, ∀ q : ℚ, jsToNumber req.param = some q →
        isValidStatusCode (some q) = true → resolveCustomBody req = none →
        ((handleCodeV2 req).map fun o => o.response.body)
          = some (.json (envelopeV2 q.num req)))
    ∧ (∀ req : Request, ∀ pick : ℕ, parseStatusCodeRange req.param ≠ [] →
        resolveCustomBody req = none →
        (handleRandomV2 req pick).response.body
          = .json (envelopeV2 ((parseStatusCodeRange req.param).getD pick 0) req))
    ∧ (∀ c : ℤ, ∀ req : Request,
        objGet (envelopeV2 c req) "code" = some (.num (c : ℚ))
        ∧ objGet (envelopeV2 c req) "requestedCode" = some (.str req.param)
        ∧ objGet (envelopeV2 c req) "description" = some (.str req.resStatusMessage)
        ∧ objGet (envelopeV2 c req) "definition" = some (.str (getStatusDescription c))
        ∧ objGet (envelopeV2 c req) "mdn" = some (.str (getMDNLink c))
        ∧ objGet (envelopeV2 c req) "startTime" = some (.str req.startIso)
        ∧ objGet (envelopeV2 c req) "replyTime" = some (.str req.replyIso)
        ∧ objGet (envelopeV2 c req) "duration_in_ms"
            = some (.num ((req.replyMs - req.startMs : ℤ) : ℚ))
        ∧ objGet (envelopeV2 c req) "duration_in_seconds"
            = some (.num (mkRat (req.replyMs - req.startMs) 1000)))
    ∧ (∀ c : ℤ, c ∉ knownStatusCodes → getStatusDescription c = "")
    ∧ (∀ c : ℤ, getMDNLink c
        = "https://developer.mozilla.org/en-US/docs/Web/HTTP/Status/" ++ toString c) := by
  refine ⟨?_, ?_, ?_, ?_, fun c => rfl⟩
  · intro req q hn hv hcb
    rw [handleCodeV2_valid req q (valid_not_reserved req.param q hn hv).2 hn hv]
    simp [composeV2_noBody q.num req hcb]
  · intro req pick hne hcb
    rw [handleRandomV2_nonempty req pick hne]
    simp [composeV2_noBody _ req hcb]
  · intro c req
    exact ⟨rfl, rfl, rfl, rfl, rfl, rfl, rfl, rfl, rfl⟩
  · intro c h
    simp only [knownStatusCodes, List.mem_cons, List.not_mem_nil, or_false, not_or] at h
    obtain ⟨h1, h2, h3, h4, h5, h6, h7, h8, h9, h10, h11, h12, h13, h14⟩ := h
    simp [getStatusDescription, h1, h2, h3, h4, h5, h6, h7, h8, h9, h10, h11, h12, h13, h14]

theorem C4_witness :
    ((handleCodeV2 (mkReq "404")).map fun o => o.response.body)
      = some (RespBody.json (envelopeV2 404 (mkReq "404")))
    ∧ getStatusDescription 599 = "" := by
  have h1 := (C4_envelope_contents).1 (mkReq "404") 404 (by rfl) (by rfl) (by rfl)
  have h2 := (C4_envelope_contents).2.2.2.1 599 (by decide)
  exact ⟨by simpa using h1, h2⟩

/-- Claim C4, counterexample to the claim as stated: the first revision's
`/:code` handler, asked for JSON with no custom body, emits a structured
descriptive envelope that lacks the requested-code string, the timestamps and
the durations. -/
theorem C4_counterexample :
    ((handleCodeV1 ⟨"404", none, none, "GET", none, some "application/json", "", 0, "", 0, ""⟩).map
        fun o => o.response.body)
      = some (RespBody.json (envelopeV1 404 ""))
    ∧ objHasKey (envelopeV1 404 "") "requestedCode" = false
    ∧ objHasKey (envelopeV1 404 "") "startTime" = false
    ∧ objHasKey (envelopeV1 404 "") "replyTime" = false
    ∧ objHasKey (envelopeV1 404 "") "duration_in_ms" = false
    ∧ objHasKey (envelopeV1 404 "") "duration_in_seconds" = false := by
  exact ⟨rfl, rfl, rfl, rfl, rfl, rfl⟩

/-- Claim C8: in every handler of both revisions, a validation failure (an
invalid status code on `/:code`, an empty parsed range on `/random/:range`)
produces the 400 response immediately: the outcome records zero delay (no
sleep awaited) and no custom-body resolution. -/
theorem C8_validation_before_effects :
    (∀ req : Request, req.param ∉ reservedV1 →
        isValidStatusCode (jsToNumber req.param) = false →
        handleCodeV1 req = some ⟨0, false, ⟨400, .text "Invalid HTTP status code"⟩⟩)
    ∧ (∀ req : Request, req.param ∉ reservedV2 →
        isValidStatusCode (jsToNumber req.param) = false →
        handleCodeV2 req = some ⟨0, false, ⟨400, .text "Invalid HTTP status code"⟩⟩)
    ∧ (∀ req : Request, ∀ pick : ℕ, parseStatusCodeRange req.param = [] →
        handleRandomV1 req pick = ⟨0, false, ⟨400, .text "Invalid range for random status codes"⟩⟩)
    ∧ (∀ req : Request, ∀ pick : ℕ, parseStatusCodeRange req.param = [] →
        handleRandomV2 req pick = ⟨0, false, ⟨400, .text "Invalid range for random status codes"⟩⟩) := by
  refine ⟨?_, ?_, ?_, ?_⟩
  · intro req hnr hv
    rw [handleCodeV1_invalid req hnr hv]
    rfl
  · intro req hnr hv
    rw [handleCodeV2_invalid req hnr hv]
    rfl
  · intro req pick h
    rw [handleRandomV1_empty req pick h]
    rfl
  · intro req pick h
    rw [handleRandomV2_empty req pick h]
    rfl

theorem C8_witness :
    handleCodeV1 (mkReq "abc") = some ⟨0, false, ⟨400, .text "Invalid HTTP status code"⟩⟩
    ∧ handleRandomV1 (mkReq "abc") 0
        = ⟨0, false, ⟨400, .text "Invalid range for random status codes"⟩⟩ := by
  have h := C8_validation_before_effects
  exact ⟨h.1 (mkReq "abc") (by decide) (by rfl), h.2.2.1 (mkReq "abc") 0 (by decide)⟩

/-- Claim C5, as amended: in both revisions the random endpoint takes the
invalid-range error branch (status 400, error text, no delay, no body
resolution) exactly when the parsed range is empty; the emptiness decision is
independent of the random pick; and for a nonempty parse the response status
is an element of the parsed sequence (which may itself contain 400, so the
error cannot be recognized by the status code alone). -/
theorem C5_random_empty_iff :
    (∀ req : Request, ∀ pick : ℕ,
        (handleRandomV1 req pick
            = ⟨0, false, ⟨400, .text "Invalid range for random status codes"⟩⟩
          ↔ parseStatusCodeRange req.param = []))
    ∧ (∀ req : Request, ∀ pick : ℕ,
        (handleRandomV2 req pick
            = ⟨0, false, ⟨400, .text "Invalid range for random status codes"⟩⟩
          ↔ parseStatusCodeRange req.param = []))
    ∧ (∀ req : Request, ∀ pick : ℕ, pick < (parseStatusCodeRange req.param).length →
        (handleRandomV1 req pick).response.status ∈ parseStatusCodeRange req.param
        ∧ (handleRandomV2 req pick).response.status ∈ parseStatusCodeRange req.param)
    ∧ (∀ req : Request, ∀ p1 p2 : ℕ, parseStatusCodeRange req.param = [] →
        handleRandomV1 req p1 = handleRandomV1 req p2
        ∧ handleRandomV2 req p1 = handleRandomV2 req p2) := by
  refine ⟨?_, ?_, ?_, ?_⟩
  · intro req pick
    constructor
    · intro h
      by_cases he : parseStatusCodeRange req.param = []
      · exact he
      · rw [handleRandomV1_nonempty req pick he] at h
        simpa using congrArg Outcome.bodyResolved h
    · intro h
      rw [handleRandomV1_empty req pick h]
      rfl
  · intro req pick
    constructor
    · intro h
      by_cases he : parseStatusCodeRange req.param = []
      · exact he
      · rw [handleRandomV2_nonempty req pick he] at h
        simpa using congrArg Outcome.bodyResolved h
    · intro h
      rw [handleRandomV2_empty req pick h]
      rfl
  · intro req pick hlt
    have hne : parseStatusCodeRange req.param ≠ [] := by
      intro h0
      rw [h0] at hlt
      simp at hlt
    constructor
    · rw [handleRandomV1_nonempty req pick hne]
      show (composeV1 ((parseStatusCodeRange req.param).getD pick 0) req).status ∈ _
      rw [composeV1_status]
      exact getD_mem_of_lt _ _ hlt
    · rw [handleRandomV2_nonempty req pick hne]
      show (composeV2 ((parseStatusCodeRange req.param).getD pick 0) req).status ∈ _
      rw [composeV2_status]
      exact getD_mem_of_lt _ _ hlt
  · intro req p1 p2 h
    rw [handleRandomV1_empty req p1 h, handleRandomV1_empty req p2 h,
      handleRandomV2_empty req p1 h, handleRandomV2_empty req p2 h]
    exact ⟨rfl, rfl⟩

theorem C5_witness :
    handleRandomV1 (mkReq "700-650") 0
      = ⟨0, false, ⟨400, .text "Invalid range for random status codes"⟩⟩
    ∧ (handleRandomV1 (mkReq "200,404") 1).response.status ∈ parseStatusCodeRange "200,404" := by
  have h := C5_random_empty_iff
  exact ⟨(h.1 (mkReq "700-650") 0).mpr (by decide),
    (h.2.2.1 (mkReq "200,404") 1 (by decide)).1⟩

/-- Claim C5, counterexample to the claim as stated ("status 400 iff the parse
is empty"): the range "400" parses to the nonempty sequence [400], yet the
random endpoint's response status is 400. -/
theorem C5_counterexample :
    (handleRandomV2 (mkReq "400") 0).response.status = 400
    ∧ parseStatusCodeRange "400" = [400] := by
  exact ⟨rfl, by decide⟩

/-- Claim C6: `sleep` is parsed with `parseInt(·, 10)`; a positive result
delays the handler by exactly that many milliseconds, while any other value
(non-numeric, negative, zero) yields no delay; the composed response never
depends on `sleep`, so no error is raised. -/
theorem C6_sleep_handling :
    (∀ s : String, ∀ m : ℤ, jsParseInt s = some m → 0 < m → sleepDelay (some s) = m.toNat)
    ∧ (∀ s : String, (∀ m : ℤ, jsParseInt s = some m → m ≤ 0) → sleepDelay (some s) = 0)
    ∧ sleepDelay none = 0
    ∧ (∀ c : ℤ, ∀ req : Request, ∀ s : Option String,
        composeV1 c {req with sleep := s} = composeV1 c req
        ∧ composeV2 c {req with sleep := s} = composeV2 c req)
    ∧ (∀ req : Request, ∀ q : ℚ, jsToNumber req.param = some q →
        isValidStatusCode (some q) = true →
        ((handleCodeV1 req).map fun o => o.delayMs) = some (sleepDelay req.sleep)
        ∧ ((handleCodeV2 req).map fun o => o.delayMs) = some (sleepDelay req.sleep)
        ∧ ((handleCodeV1 req).map fun o => o.response) = some (composeV1 q.num req)
        ∧ ((handleCodeV2 req).map fun o => o.response) = some (composeV2 q.num req))
    ∧ (∀ req : Request, ∀ pick : ℕ, parseStatusCodeRange req.param ≠ [] →
        (handleRandomV1 req pick).delayMs = sleepDelay req.sleep
        ∧ (handleRandomV2 req pick).delayMs = sleepDelay req.sleep
        ∧ (handleRandomV1 req pick).response
            = composeV1 ((parseStatusCodeRange req.param).getD pick 0) req
        ∧ (handleRandomV2 req pick).response
            = composeV2 ((parseStatusCodeRange req.param).getD pick 0) req) := by
  refine ⟨?_, ?_, rfl, ?_, ?_, ?_⟩
  · intro s m hp hm
    have hs : s ≠ "" := by
      rintro rfl
      rw [show jsParseInt "" = (none : Option ℤ) from rfl] at hp
      exact Option.noConfusion hp
    simp [sleepDelay, hs, hp, hm]
  · intro s h
    by_cases hs : s = ""
    · simp [sleepDelay, hs]
    · rcases hp : jsParseInt s with _ | m
      · simp [sleepDelay, hs, hp]
      · have hm := h m hp
        simp [sleepDelay, hs, hp, not_lt.mpr hm]
  · intro c req s
    exact ⟨rfl, rfl⟩
  · intro req q hn hv
    have hnr := valid_not_reserved req.param q hn hv
    refine ⟨?_, ?_, ?_, ?_⟩
    · rw [handleCodeV1_valid req q hnr.1 hn hv]; rfl
    · rw [handleCodeV2_valid req q hnr.2 hn hv]; rfl
    · rw [handleCodeV1_valid req q hnr.1 hn hv]; rfl
    · rw [handleCodeV2_valid req q hnr.2 hn hv]; rfl
  · intro req pick hne
    refine ⟨?_, ?_, ?_, ?_⟩
    · rw [handleRandomV1_nonempty req pick hne]
    · rw [handleRandomV2_nonempty req pick hne]
    · rw [handleRandomV1_nonempty req pick hne]
    · rw [handleRandomV2_nonempty req pick hne]

theorem C6_witness :
    sleepDelay (some "100") = 100
    ∧ sleepDelay (some "-5") = 0
    ∧ ((handleCodeV1 ⟨"204", some "abc", none, "GET", none, none, "", 0, "", 0, ""⟩).map
        fun o => o.delayMs) = some 0 := by
  have h := C6_sleep_handling
  refine ⟨?_, ?_, ?_⟩
  · have h1 := h.1 "100" 100 (by rfl) (by norm_num)
    simpa using h1
  · exact h.2.1 "-5" (by
      intro m hm
      rw [show jsParseInt "-5" = some (-5) from rfl] at hm
      obtain rfl := Option.some.inj hm
      norm_num)
  · have h5 := (h.2.2.2.2.1 ⟨"204", some "abc", none, "GET", none, none, "", 0, "", 0, ""⟩
      204 (by decide) (by decide)).1
    rw [h5]
    rfl

/-- Claim C7, as amended: the redirect endpoint responds 400 with an
explanatory message exactly when the `Number`-coerced path code is not an
integer in [300, 308] or the `to` query parameter is falsy (absent **or the
empty string**); otherwise it redirects with exactly that status code to
exactly that target, with no validation of the target's shape. -/
theorem C7_redirect_behavior :
    (∀ code : String, ∀ q : ℚ, ∀ t : String, jsToNumber code = some q →
        isValidStatusCode (some q) = true → (300 : ℚ) ≤ q → q ≤ 308 → t ≠ "" →
        handleRedirect ⟨code, some t⟩ = .redirect q.num t)
    ∧ (∀ code : String, ∀ toP : Option String,
        (∀ q : ℚ, jsToNumber code = some q →
          ¬(isValidStatusCode (some q) = true ∧ (300 : ℚ) ≤ q ∧ q ≤ 308)) →
        handleRedirect ⟨code, toP⟩
          = .clientError 400 "Invalid redirect status code (must be 300-308)")
    ∧ (∀ code : String, ∀ q : ℚ, jsToNumber code = some q →
        isValidStatusCode (some q) = true → (300 : ℚ) ≤ q → q ≤ 308 →
        handleRedirect ⟨code, none⟩
            = .clientError 400 "Missing \"to\" query parameter for redirect target"
        ∧ handleRedirect ⟨code, some ""⟩
            = .clientError 400 "Missing \"to\" query parameter for redirect target")
    ∧ handleRedirect ⟨"200", some "https://example.com"⟩
        = .clientError 400 "Invalid redirect status code (must be 300-308)" := by
  refine ⟨?_, ?_, ?_, by rfl⟩
  · intro code q t hn hv h3 h8 ht
    simp [handleRedirect, hn, hv, h3, h8, ht]
  · intro code toP h
    rcases hn : jsToNumber code with _ | q
    · simp [handleRedirect, hn]
    · have hq := h q hn
      simp [handleRedirect, hn, hq]
  · intro code q hn hv h3 h8
    constructor <;> simp [handleRedirect, hn, hv, h3, h8]

theorem C7_witness :
    handleRedirect ⟨"301", some "https://example.com"⟩
      = .redirect 301 "https://example.com" := by
  have h := (C7_redirect_behavior).1 "301" 301 "https://example.com"
    (by decide) (by decide) (by norm_num) (by norm_num) (by decide)
  simpa using h

/-- Claim C7, counterexample to the claim as stated: with the valid redirect
code 301 and a `to` query parameter that is present but empty, the handler
responds 400 (empty string is falsy), although the claim requires a redirect
whenever the code is a redirect code and `to` is not absent. -/
theorem C7_counterexample :
    handleRedirect ⟨"301", some ""⟩
      = .clientError 400 "Missing \"to\" query parameter for redirect target"
    ∧ isValidStatusCode (jsToNumber "301") = true
    ∧ ((⟨"301", some ""⟩ : RedirectRequest).toParam ≠ none) := by
  exact ⟨rfl, by decide, by simp⟩

/-- Claim C10: a `body` query parameter whose JSON decode yields `null` is
treated as the raw string fallback (nullish coalescing), as is a failed
decode; a decoded non-object value (number, boolean, string) is sent as plain
text via `String()`; only a decoded object or array is serialized as a JSON
response — in both revisions of the `/:code` handler. -/
theorem C10_body_param_classification :
    (∀ req : Request, ∀ s : String, req.bodyParam = some s →
        tryParseJSON s = some JsValue.null → resolveCustomBody req = some (.str s))
    ∧ (∀ req : Request, ∀ s : String, req.bodyParam = some s →
        tryParseJSON s = none → resolveCustomBody req = some (.str s))
    ∧ tryParseJSON "null" = some JsValue.null
    ∧ (∀ req : Request, ∀ q : ℚ, ∀ v : JsValue, jsToNumber req.param = some q →
        isValidStatusCode (some q) = true → resolveCustomBody req = some v →
        jsTypeofIsObject v = false →
        ((handleCodeV1 req).map fun o => o.response.body) = some (.text (jsPrimToString v))
        ∧ ((handleCodeV2 req).map fun o => o.response.body) = some (.text (jsPrimToString v)))
    ∧ (∀ req : Request, ∀ q : ℚ, ∀ v : JsValue, jsToNumber req.param = some q →
        isValidStatusCode (some q) = true → resolveCustomBody req = some v →
        jsTypeofIsObject v = true →
        ((handleCodeV1 req).map fun o => o.response.body) = some (.json v)
        ∧ ((handleCodeV2 req).map fun o => o.response.body) = some (.json v)) := by
  refine ⟨?_, ?_, rfl, ?_, ?_⟩
  · intro req s hb hp
    simp [resolveCustomBody, hb, hp]
  · intro req s hb hp
    simp [resolveCustomBody, hb, hp]
  · intro req q v hn hv hcb ho
    have hnr := valid_not_reserved req.param q hn hv
    constructor
    · rw [handleCodeV1_valid req q hnr.1 hn hv]
      simp [composeV1_custom_text q.num req v hcb ho]
    · rw [handleCodeV2_valid req q hnr.2 hn hv]
      simp [composeV2_custom_text q.num req v hcb ho]
  · intro req q v hn hv hcb ho
    have hnr := valid_not_reserved req.param q hn hv
    constructor
    · rw [handleCodeV1_valid req q hnr.1 hn hv]
      simp [composeV1_custom_json q.num req v hcb ho]
    · rw [handleCodeV2_valid req q hnr.2 hn hv]
      simp [composeV2_custom_json q.num req v hcb ho]

theorem C10_witness :
    resolveCustomBody ⟨"200", none, some "null", "GET", none, none, "", 0, "", 0, ""⟩
      = some (JsValue.str "null")
    ∧ ((handleCodeV1 ⟨"200", none, some "null", "GET", none, none, "", 0, "", 0, ""⟩).map
        fun o => o.response.body) = some (RespBody.text "null") := by
  have h := C10_body_param_classification
  have h1 := h.1 ⟨"200", none, some "null", "GET", none, none, "", 0, "", 0, ""⟩ "null"
    (by rfl) (by rfl)
  refine ⟨h1, ?_⟩
  have h4 := (h.2.2.2.1 ⟨"200", none, some "null", "GET", none, none, "", 0, "", 0, ""⟩
    200 (JsValue.str "null") (by decide) (by decide) h1 (by rfl)).1
  simpa using h4
